import Mathlib

/-!
Shallow embedding of the Luna Massage email service (the retrying variant of
the server source), covering the delivery retry core `sendEmailWithRetry`,
the send-confirmation request handler validation, its template selection, and
the catch-block error classification.

The mail transport is modelled as an oracle `Nat → Except EmailError SendInfo`
giving the outcome of each 1-indexed call of `transporter.sendMail`; backoff
sleeps are recorded (millisecond durations, in order) rather than performed.
-/

/-- Result object returned by `transporter.sendMail` on success: the provider
message identifier and raw response string (`info.messageId`, `info.response`),
opaque values produced by the transport. -/
structure SendInfo where
  messageId : String
  response : String
deriving Repr, DecidableEq

/-- An error thrown by the mail transport: `error.message` (a string) and the
optional `error.code` (such as ETIMEDOUT, EAUTH, ECONNECTION, ENOTFOUND;
absent on errors that carry no code). -/
structure EmailError where
  message : String
  code : Option String
deriving Repr, DecidableEq

/-- Observable trace of one run of the retry loop: how many times
`transporter.sendMail` was invoked, and the list of backoff sleep durations
(milliseconds) in the order they were awaited. -/
structure RetryTrace where
  calls : Nat
  sleeps : List Nat
deriving Repr, DecidableEq

/-- Whether a transport outcome is a success (the `try` branch returns) or a
thrown error (the `catch` branch runs). -/
def sendOk : Except EmailError SendInfo → Bool
  | Except.ok _ => true
  | Except.error _ => false

/-- One iteration of the `for (let attempt = 1; attempt <= maxRetries; attempt++)`
loop of `sendEmailWithRetry`, starting at iteration `attempt` with the current
value of the `lastError` variable (`none` while it is still unassigned, i.e.
the JavaScript `undefined`).  On success the loop returns `info`; on failure it
stores the error in `lastError`, sleeps `Math.pow(2, attempt) * 1000`
milliseconds when `attempt < maxRetries`, and continues; after the loop the
function throws `lastError` (modelled as `Except.error lastError`). -/
def retryGo (transport : Nat → Except EmailError SendInfo) (maxRetries : Nat)
    (attempt : Nat) (lastError : Option EmailError) :
    Except (Option EmailError) SendInfo × RetryTrace :=
  if h : attempt ≤ maxRetries then
    match transport attempt with
    | Except.ok info => (Except.ok info, ⟨1, []⟩)
    | Except.error e =>
      let rest := retryGo transport maxRetries (attempt + 1) (some e)
      if attempt < maxRetries then
        (rest.1, ⟨rest.2.calls + 1, 2 ^ attempt * 1000 :: rest.2.sleeps⟩)
      else
        (rest.1, ⟨rest.2.calls + 1, rest.2.sleeps⟩)
  else
    (Except.error lastError, ⟨0, []⟩)
termination_by maxRetries + 1 - attempt
decreasing_by omega

/-- `sendEmailWithRetry(mailOptions, maxRetries)`: run the retry loop from
attempt 1 with `lastError` unassigned.  The first component is the returned
`info` (`Except.ok`) or the thrown `lastError` (`Except.error`; the payload
`none` is the JavaScript `undefined`); the second is the observable trace.
The `mailOptions` argument is already folded into the `transport` oracle,
since each iteration calls `transporter.sendMail(mailOptions)` with the same
options object. -/
def sendEmailWithRetry (transport : Nat → Except EmailError SendInfo)
    (maxRetries : Nat) : Except (Option EmailError) SendInfo × RetryTrace :=
  retryGo transport maxRetries 1 none

lemma retryGo_stop (t : Nat → Except EmailError SendInfo) (m attempt : Nat)
    (le : Option EmailError) (h : ¬ attempt ≤ m) :
    retryGo t m attempt le = (Except.error le, ⟨0, []⟩) := by
  rw [retryGo]
  simp [h]

lemma retryGo_ok (t : Nat → Except EmailError SendInfo) (m attempt : Nat)
    (le : Option EmailError) (info : SendInfo) (h : attempt ≤ m)
    (hok : t attempt = Except.ok info) :
    retryGo t m attempt le = (Except.ok info, ⟨1, []⟩) := by
  rw [retryGo]
  simp [h, hok]

lemma retryGo_err_lt (t : Nat → Except EmailError SendInfo) (m attempt : Nat)
    (le : Option EmailError) (e : EmailError) (h : attempt < m)
    (herr : t attempt = Except.error e) :
    retryGo t m attempt le =
      ((retryGo t m (attempt + 1) (some e)).1,
       ⟨(retryGo t m (attempt + 1) (some e)).2.calls + 1,
        2 ^ attempt * 1000 :: (retryGo t m (attempt + 1) (some e)).2.sleeps⟩) := by
  rw [retryGo]
  simp [Nat.le_of_lt h, herr, h]

lemma retryGo_err_last (t : Nat → Except EmailError SendInfo) (m : Nat)
    (le : Option EmailError) (e : EmailError) (herr : t m = Except.error e) :
    retryGo t m m le = (Except.error (some e), ⟨1, []⟩) := by
  rw [retryGo]
  simp [herr, retryGo_stop t m (m + 1) (some e) (by omega)]

lemma sleepList_shift (attempt d : Nat) :
    2 ^ attempt * 1000 ::
        (List.range d).map (fun i => 2 ^ (attempt + 1 + i) * 1000)
      = (List.range (d + 1)).map (fun i => 2 ^ (attempt + i) * 1000) := by
  rw [List.range_succ_eq_map, List.map_cons, List.map_map]
  refine congrArg₂ List.cons (by norm_num) (List.map_congr_left fun i _ => ?_)
  have h : attempt + 1 + i = attempt + Nat.succ i := by omega
  simp [Function.comp, h]

lemma retryGo_all_fail (t : Nat → Except EmailError SendInfo)
    (err : Nat → EmailError) (m : Nat) :
    ∀ d attempt le, attempt + d = m →
      (∀ j, attempt ≤ j → j ≤ m → t j = Except.error (err j)) →
      retryGo t m attempt le
        = (Except.error (some (err m)),
           ⟨d + 1, (List.range d).map (fun i => 2 ^ (attempt + i) * 1000)⟩) := by
  intro d
  induction d with
  | zero =>
    intro attempt le hd hfail
    have ha : attempt = m := by omega
    subst ha
    rw [retryGo_err_last t attempt le (err attempt) (hfail attempt le_rfl le_rfl)]
    simp
  | succ d ih =>
    intro attempt le hd hfail
    have h1 : attempt < m := by omega
    have herr : t attempt = Except.error (err attempt) :=
      hfail attempt le_rfl (by omega)
    rw [retryGo_err_lt t m attempt le (err attempt) h1 herr]
    rw [ih (attempt + 1) (some (err attempt)) (by omega)
      (fun j hj1 hj2 => hfail j (by omega) hj2)]
    simp only [Prod.mk.injEq, RetryTrace.mk.injEq]
    exact ⟨trivial, trivial, sleepList_shift attempt d⟩

lemma retryGo_first_ok (t : Nat → Except EmailError SendInfo)
    (m : Nat) (info : SendInfo) :
    ∀ d attempt le, attempt + d ≤ m →
      (∀ j, attempt ≤ j → j < attempt + d → ∃ e, t j = Except.error e) →
      t (attempt + d) = Except.ok info →
      retryGo t m attempt le
        = (Except.ok info,
           ⟨d + 1, (List.range d).map (fun i => 2 ^ (attempt + i) * 1000)⟩) := by
  intro d
  induction d with
  | zero =>
    intro attempt le hd _hfail hok
    rw [retryGo_ok t m attempt le info (by omega) hok]
    simp
  | succ d ih =>
    intro attempt le hd hfail hok
    have h1 : attempt < m := by omega
    obtain ⟨e, he⟩ := hfail attempt le_rfl (by omega)
    rw [retryGo_err_lt t m attempt le e h1 he]
    have hshift : attempt + 1 + d = attempt + (d + 1) := by omega
    rw [ih (attempt + 1) (some e) (by omega)
      (fun j hj1 hj2 => hfail j (by omega) (by omega))
      (by rw [hshift]; exact hok)]
    simp only [Prod.mk.injEq, RetryTrace.mk.injEq]
    exact ⟨trivial, trivial, sleepList_shift attempt d⟩

lemma retryGo_trace_congr (t1 t2 : Nat → Except EmailError SendInfo)
    (hok : ∀ j, sendOk (t1 j) = sendOk (t2 j)) (m : Nat) :
    ∀ d attempt le1 le2, m + 1 ≤ attempt + d →
      (retryGo t1 m attempt le1).2 = (retryGo t2 m attempt le2).2 := by
  intro d
  induction d with
  | zero =>
    intro attempt le1 le2 hd
    rw [retryGo_stop t1 m attempt le1 (by omega),
      retryGo_stop t2 m attempt le2 (by omega)]
  | succ d ih =>
    intro attempt le1 le2 hd
    by_cases hm : attempt ≤ m
    · have hj := hok attempt
      cases h1 : t1 attempt with
      | ok i1 =>
        cases h2 : t2 attempt with
        | ok i2 =>
          rw [retryGo_ok t1 m attempt le1 i1 hm h1,
            retryGo_ok t2 m attempt le2 i2 hm h2]
        | error e2 => simp [sendOk, h1, h2] at hj
      | error e1 =>
        cases h2 : t2 attempt with
        | ok i2 => simp [sendOk, h1, h2] at hj
        | error e2 =>
          rcases Nat.lt_or_ge attempt m with hlt | hge
          · rw [retryGo_err_lt t1 m attempt le1 e1 hlt h1,
              retryGo_err_lt t2 m attempt le2 e2 hlt h2]
            have htail := ih (attempt + 1) (some e1) (some e2) (by omega)
            simp only [RetryTrace.mk.injEq]
            rw [htail]
            simp
          · have heq : attempt = m := by omega
            subst heq
            rw [retryGo_err_last t1 attempt le1 e1 h1,
              retryGo_err_last t2 attempt le2 e2 h2]
    · rw [retryGo_stop t1 m attempt le1 hm, retryGo_stop t2 m attempt le2 hm]

/-- A transport that fails every attempt with a timeout-class error. -/
def alwaysTimeoutTransport : Nat → Except EmailError SendInfo :=
  fun _ => Except.error ⟨"connection timeout", some ("ETIMEDOUT")⟩

/-- A transport that fails every attempt with an authentication error. -/
def alwaysAuthFailTransport : Nat → Except EmailError SendInfo :=
  fun _ => Except.error ⟨"Invalid login", some ("EAUTH")⟩

/-- A transport that fails attempts 1 and 2 and succeeds on attempt 3. -/
def thirdTrySuccessTransport : Nat → Except EmailError SendInfo :=
  fun j =>
    if j < 3 then Except.error ⟨"greeting never received", some ("ETIMEDOUT")⟩
    else Except.ok ⟨"msg-123", "250 OK"⟩

/-- C1: for every `maxAttempts = n ≥ 1`, if every transport invocation fails,
`sendEmailWithRetry` performs exactly `n` transport invocations and exactly
`n - 1` backoff sleeps, and the 1-indexed `i+1`-st sleep (index `i` of the
list) lasts `2 ^ (i + 1) * 1000` milliseconds, i.e. `backoffBase * 2 ^ (i+1)`
with `backoffBase = 1000` ms: 2 s after attempt 1, 4 s after attempt 2. -/
theorem sendEmailWithRetry_allFail_trace
    (t : Nat → Except EmailError SendInfo) (err : Nat → EmailError) (n : Nat)
    (hn : 1 ≤ n) (hfail : ∀ j, 1 ≤ j → j ≤ n → t j = Except.error (err j)) :
    (sendEmailWithRetry t n).2.calls = n ∧
    (sendEmailWithRetry t n).2.sleeps.length = n - 1 ∧
    (sendEmailWithRetry t n).2.sleeps
      = (List.range (n - 1)).map (fun i => 2 ^ (i + 1) * 1000) := by
  unfold sendEmailWithRetry
  rw [retryGo_all_fail t err n (n - 1) 1 none (by omega) hfail]
  refine ⟨by simp; omega, by simp, ?_⟩
  simp only []
  exact List.map_congr_left fun i _ => by rw [Nat.add_comm]

/-- Concrete run of C1: three timeout failures with `maxAttempts = 3` give
three calls and sleeps of 2000 ms then 4000 ms. -/
theorem sendEmailWithRetry_allFail_trace_witness :
    (sendEmailWithRetry alwaysTimeoutTransport 3).2.calls = 3 ∧
    (sendEmailWithRetry alwaysTimeoutTransport 3).2.sleeps.length = 2 ∧
    (sendEmailWithRetry alwaysTimeoutTransport 3).2.sleeps
      = (List.range 2).map (fun i => 2 ^ (i + 1) * 1000) :=
  sendEmailWithRetry_allFail_trace alwaysTimeoutTransport
    (fun _ => ⟨"connection timeout", some ("ETIMEDOUT")⟩) 3 (by omega)
    (fun _ _ _ => rfl)

/-- C2: if the transport first succeeds on attempt `k ≤ n`, the function
returns that attempt's `info` object unchanged (provider message id and raw
response passed through uninterpreted) after exactly `k` transport
invocations and `k - 1` sleeps; no further attempts occur. -/
theorem sendEmailWithRetry_firstSuccess
    (t : Nat → Except EmailError SendInfo) (n k : Nat) (info : SendInfo)
    (hk : 1 ≤ k) (hkn : k ≤ n)
    (hfail : ∀ j, 1 ≤ j → j < k → ∃ e, t j = Except.error e)
    (hok : t k = Except.ok info) :
    (sendEmailWithRetry t n).1 = Except.ok info ∧
    (sendEmailWithRetry t n).2.calls = k ∧
    (sendEmailWithRetry t n).2.sleeps.length = k - 1 := by
  unfold sendEmailWithRetry
  have heq : 1 + (k - 1) = k := by omega
  rw [retryGo_first_ok t n info (k - 1) 1 none (by omega)
    (fun j hj1 hj2 => hfail j hj1 (by omega))
    (by rw [heq]; exact hok)]
  exact ⟨rfl, by simp; omega, by simp⟩

/-- Concrete run of C2 (Scenario A): failures on attempts 1 and 2, success on
attempt 3 with `maxAttempts = 3`: the provider values come through and the
trace shows 3 calls and 2 sleeps. -/
theorem sendEmailWithRetry_firstSuccess_witness :
    (sendEmailWithRetry thirdTrySuccessTransport 3).1
        = Except.ok ⟨"msg-123", "250 OK"⟩ ∧
    (sendEmailWithRetry thirdTrySuccessTransport 3).2.calls = 3 ∧
    (sendEmailWithRetry thirdTrySuccessTransport 3).2.sleeps.length = 2 :=
  sendEmailWithRetry_firstSuccess thirdTrySuccessTransport 3 3
    ⟨"msg-123", "250 OK"⟩ (by omega) (by omega)
    (fun j _ hj => ⟨⟨"greeting never received", some ("ETIMEDOUT")⟩,
      by simp [thirdTrySuccessTransport, hj]⟩)
    rfl

/-- C3: when every attempt fails, the outcome is a failure carrying exactly
the error of the final attempt (attempt `n`), unchanged, and the number of
attempts made equals `maxAttempts`. -/
theorem sendEmailWithRetry_allFail_outcome
    (t : Nat → Except EmailError SendInfo) (err : Nat → EmailError) (n : Nat)
    (hn : 1 ≤ n) (hfail : ∀ j, 1 ≤ j → j ≤ n → t j = Except.error (err j)) :
    (sendEmailWithRetry t n).1 = Except.error (some (err n)) ∧
    (sendEmailWithRetry t n).2.calls = n := by
  unfold sendEmailWithRetry
  rw [retryGo_all_fail t err n (n - 1) 1 none (by omega) hfail]
  exact ⟨rfl, by simp; omega⟩

/-- Concrete run of C3 (Scenario B): two authentication failures with
`maxAttempts = 2` surface the last EAUTH error after 2 attempts. -/
theorem sendEmailWithRetry_allFail_outcome_witness :
    (sendEmailWithRetry alwaysAuthFailTransport 2).1
        = Except.error (some ⟨"Invalid login", some ("EAUTH")⟩) ∧
    (sendEmailWithRetry alwaysAuthFailTransport 2).2.calls = 2 :=
  sendEmailWithRetry_allFail_outcome alwaysAuthFailTransport
    (fun _ => ⟨"Invalid login", some ("EAUTH")⟩) 2 (by omega)
    (fun _ _ _ => rfl)

/-- C4: the retry decision never looks at which error was raised: two
transports that succeed and fail on exactly the same attempts produce
identical traces (same number of calls, same sleeps), whatever errors they
raise. -/
theorem sendEmailWithRetry_errorKind_independent
    (t1 t2 : Nat → Except EmailError SendInfo) (n : Nat)
    (h : ∀ j, sendOk (t1 j) = sendOk (t2 j)) :
    (sendEmailWithRetry t1 n).2 = (sendEmailWithRetry t2 n).2 :=
  retryGo_trace_congr t1 t2 h n n 1 none none (by omega)

/-- Concrete run of C4: an always-timeout transport and an always-EAUTH
transport produce the same trace at `maxAttempts = 2`. -/
theorem sendEmailWithRetry_errorKind_independent_witness :
    (sendEmailWithRetry alwaysTimeoutTransport 2).2
      = (sendEmailWithRetry alwaysAuthFailTransport 2).2 :=
  sendEmailWithRetry_errorKind_independent alwaysTimeoutTransport
    alwaysAuthFailTransport 2 (fun _ => rfl)

/-- C6: with `maxAttempts = 1` the loop makes exactly one transport
invocation and never sleeps, whether that attempt succeeds or fails. -/
theorem sendEmailWithRetry_single_attempt
    (t : Nat → Except EmailError SendInfo) :
    (sendEmailWithRetry t 1).2 = ⟨1, []⟩ := by
  unfold sendEmailWithRetry
  cases h1 : t 1 with
  | ok info => rw [retryGo_ok t 1 1 none info le_rfl h1]
  | error e => rw [retryGo_err_last t 1 none e h1]

/-- C9: with `maxRetries = 0` the loop body never runs: zero transport
invocations, no sleeps, and the function throws the still-unassigned
`lastError`, i.e. the JavaScript `undefined` (`Except.error none`), not any
transport error. -/
theorem sendEmailWithRetry_zeroRetries
    (t : Nat → Except EmailError SendInfo) :
    sendEmailWithRetry t 0 = (Except.error none, ⟨0, []⟩) := by
  unfold sendEmailWithRetry
  exact retryGo_stop t 0 1 none (by omega)

/-- Whether `pat` occurs at the start of `hay` (character lists). -/
def listBeginsWith : List Char → List Char → Bool
  | [], _ => true
  | _ :: _, [] => false
  | p :: ps, c :: cs => (p == c) && listBeginsWith ps cs

/-- Whether `pat` occurs contiguously anywhere in `hay` (character lists). -/
def listHasSubstr : List Char → List Char → Bool
  | [], pat => pat.isEmpty
  | c :: cs, pat => listBeginsWith pat (c :: cs) || listHasSubstr cs pat

/-- JavaScript `s.includes(pat)`: case-sensitive contiguous substring test. -/
def jsIncludes (s pat : String) : Bool :=
  listHasSubstr s.toList pat.toList

/-- A character matched by the JavaScript regex class `\s` (ECMA-262
CharacterClassEscape `s`): the WhiteSpace productions TAB U+0009, VT U+000B,
FF U+000C, SP U+0020, NBSP U+00A0, ZWNBSP U+FEFF and every Unicode
Space_Separator (U+1680, U+2000 through U+200A, U+202F, U+205F, U+3000),
together with the LineTerminator productions LF U+000A, CR U+000D,
LS U+2028 and PS U+2029. -/
def jsWhitespace (c : Char) : Bool :=
  let v := c.toNat
  (v == 0x09) || (v == 0x0A) || (v == 0x0B) || (v == 0x0C) || (v == 0x0D)
    || (v == 0x20) || (v == 0xA0) || (v == 0x1680)
    || (decide (0x2000 ≤ v) && decide (v ≤ 0x200A))
    || (v == 0x2028) || (v == 0x2029) || (v == 0x202F)
    || (v == 0x205F) || (v == 0x3000) || (v == 0xFEFF)

/-- A character matched by the regex class `[^\s@]`: neither JavaScript
whitespace nor the at sign. -/
def isAddrChar (c : Char) : Bool :=
  !jsWhitespace c && c != '@'

/-- The handler's email check, the test of `/^[^\s@]+@[^\s@]+\.[^\s@]+$/`:
the string splits as `A ++ at ++ B ++ dot ++ C` with `A`, `B`, `C` nonempty
and free of whitespace and at signs.  Expressed by searching for the position
`i` of the at sign and a position `j` of a dot with a nonempty run on each
side, every character other than position `i` lying in `[^\s@]`. -/
def matchesEmailRegex (s : String) : Bool :=
  let cs := s.toList
  let n := cs.length
  (List.range n).any fun i =>
    (List.range n).any fun j =>
      (cs.getD i ' ' == '@') && (cs.getD j ' ' == '.')
        && decide (1 ≤ i) && decide (i + 2 ≤ j) && decide (j + 2 ≤ n)
        && ((List.range n).all fun k => (k == i) || isAddrChar (cs.getD k ' '))

/-- Error message of the 504 timeout branch of the catch block. -/
def timeoutMessage : String := "Connection to Gmail timed out. Please try again."

/-- Error message of the EAUTH branch of the catch block. -/
def authMessage : String :=
  "Email authentication failed. Check your Gmail App Password on Render."

/-- Error message of the ECONNECTION branch of the catch block. -/
def connectionMessage : String :=
  "Cannot connect to Gmail servers. Check network or firewall settings."

/-- Error message of the ENOTFOUND branch of the catch block. -/
def dnsMessage : String := "Cannot resolve Gmail server. Network issue."

/-- Status and message the catch block chooses for a given error. -/
structure ErrResponse where
  statusCode : Nat
  errorMessage : String
deriving Repr, DecidableEq

/-- The first condition of the catch block's if chain:
`error.message.includes('timeout') || error.code === 'ETIMEDOUT'`. -/
def timeoutClass (e : EmailError) : Bool :=
  jsIncludes e.message ("timeout") || e.code == some ("ETIMEDOUT")

/-- The error classification of the send-confirmation handler's catch block:
starting from `statusCode = 500` and `errorMessage = error.message`, the if
chain overrides them for timeout-class, EAUTH, ECONNECTION and ENOTFOUND
errors, in that order. -/
def classifyError (e : EmailError) : ErrResponse :=
  if timeoutClass e then ⟨504, timeoutMessage⟩
  else if e.code == some ("EAUTH") then ⟨500, authMessage⟩
  else if e.code == some ("ECONNECTION") then ⟨500, connectionMessage⟩
  else if e.code == some ("ENOTFOUND") then ⟨500, dnsMessage⟩
  else ⟨500, e.message⟩

/-- Booking payload fields consulted by the send-confirmation handler.  Every
field is optional, as any JSON field may be absent; `service`, `date`, `time`
and `servicePrice` feed only the plain-text body, whose locale-dependent
`Date` formatting is host behavior and is not modelled. -/
structure Booking where
  email : Option String
  bookingId : Option String
  service : Option String
  date : Option String
  time : Option String
  servicePrice : Option String
deriving Repr, DecidableEq

/-- `generateConfirmationEmail(booking)`: in the source its body is the
placeholder string. -/
def generateConfirmationEmail (_booking : Booking) : String := "..."

/-- `generateReminderEmail(booking)`: in the source its body is the
placeholder string. -/
def generateReminderEmail (_booking : Booking) : String := "..."

/-- JavaScript template-literal interpolation of a possibly absent string. -/
def jsTemplateStr : Option String → String
  | none => "undefined"
  | some s => s

/-- The confirmation subject line built by the handler. -/
def confirmationSubject (bookingId : Option String) : String :=
  "✨ Payment Confirmed - Luna Massage Booking " ++ jsTemplateStr bookingId

/-- The reminder subject line built by the handler. -/
def reminderSubject : String := "📅 Reminder - Your Luna Massage Appointment"

/-- The `mailOptions` object handed to `sendEmailWithRetry`.  The plain-text
fallback body is omitted (see `Booking`); no claim concerns it. -/
structure MailOptions where
  fromField : String
  toField : String
  subject : String
  html : String
  replyTo : String
deriving Repr, DecidableEq

/-- Construction of `mailOptions` in the handler, including the template
selection `const isConfirmation = status === 'confirmed'`. -/
def buildMailOptions (emailUser : String) (b : Booking)
    (status : Option String) : MailOptions :=
  let isConfirmation := status == some ("confirmed")
  { fromField := "\"Luna Massage\" <" ++ emailUser ++ ">"
    toField := b.email.getD ("")
    subject :=
      if isConfirmation then confirmationSubject b.bookingId
      else reminderSubject
    html :=
      if isConfirmation then generateConfirmationEmail b
      else generateReminderEmail b
    replyTo := "info@lunamassage.com" }

/-- The JSON body and HTTP status the send-confirmation handler responds
with (`timestamp` omitted: host clock). -/
structure JsonResponse where
  statusCode : Nat
  success : Bool
  error : Option String
  messageId : Option String
  recipient : Option String
  code : Option String
deriving Repr, DecidableEq

/-- JavaScript falsiness of `booking.email` in `!booking || !booking.email`:
an absent field or the empty string. -/
def emailFalsy : Option String → Bool
  | none => true
  | some s => s == ""

/-- The send-confirmation route handler: validate the payload, build
`mailOptions` (selecting the template from `status`), run
`sendEmailWithRetry(mailOptions, 2)`, and answer 200 on success or the
classified error on failure.  The transport oracle takes the built
`mailOptions` since every attempt calls `transporter.sendMail(mailOptions)`;
the returned trace counts the transport invocations made while handling the
request (zero when validation rejects it). -/
def handleSendConfirmation
    (transportFn : MailOptions → Nat → Except EmailError SendInfo)
    (emailUser : String) (booking : Option Booking) (status : Option String) :
    JsonResponse × RetryTrace :=
  match booking with
  | none =>
    (⟨400, false, some ("Missing required booking data"), none, none, none⟩,
     ⟨0, []⟩)
  | some b =>
    if emailFalsy b.email then
      (⟨400, false, some ("Missing required booking data"), none, none, none⟩,
       ⟨0, []⟩)
    else if !matchesEmailRegex (b.email.getD ("")) then
      (⟨400, false, some ("Invalid email address"), none, none, none⟩,
       ⟨0, []⟩)
    else
      let mailOptions := buildMailOptions emailUser b status
      let r := sendEmailWithRetry (transportFn mailOptions) 2
      match r.1 with
      | Except.ok info =>
        (⟨200, true, none, some info.messageId, some (b.email.getD ("")), none⟩,
         r.2)
      | Except.error (some e) =>
        let c := classifyError e
        (⟨c.statusCode, false, some c.errorMessage, none, none, e.code⟩, r.2)
      | Except.error none =>
        -- Unreachable with maxRetries = 2: the loop runs at least once, so a
        -- thrown `lastError` always holds the final attempt's error.
        (⟨500, false, none, none, none, none⟩, r.2)

/-- C5: the catch block's classification is a pure total function of the
final error: every error gets a 504 or 500 status; timeout-class errors get
504 with the timeout message; EAUTH, ECONNECTION and ENOTFOUND errors that
are not timeout-class get 500 with their specific messages; and every other
error gets 500 carrying the raw error text. -/
theorem classifyError_total (e : EmailError) :
    ((classifyError e).statusCode = 504 ∨ (classifyError e).statusCode = 500) ∧
    (timeoutClass e = true → classifyError e = ⟨504, timeoutMessage⟩) ∧
    (timeoutClass e = false → e.code = some ("EAUTH") →
      classifyError e = ⟨500, authMessage⟩) ∧
    (timeoutClass e = false → e.code = some ("ECONNECTION") →
      classifyError e = ⟨500, connectionMessage⟩) ∧
    (timeoutClass e = false → e.code = some ("ENOTFOUND") →
      classifyError e = ⟨500, dnsMessage⟩) ∧
    (timeoutClass e = false → e.code ≠ some ("EAUTH") →
      e.code ≠ some ("ECONNECTION") → e.code ≠ some ("ENOTFOUND") →
      classifyError e = ⟨500, e.message⟩) := by
  refine ⟨?_, ?_, ?_, ?_, ?_, ?_⟩
  · unfold classifyError
    split_ifs <;> simp
  · intro h
    simp [classifyError, h]
  · intro h h1
    simp [classifyError, h, h1]
  · intro h h1
    simp [classifyError, h, h1]
  · intro h h1
    simp [classifyError, h, h1]
  · intro h h1 h2 h3
    simp [classifyError, h, beq_iff_eq, h1, h2, h3]

/-- Concrete runs of C5: one error per branch of the classification. -/
theorem classifyError_total_witness :
    classifyError ⟨"connection timeout", none⟩ = ⟨504, timeoutMessage⟩ ∧
    classifyError ⟨"Invalid login", some ("EAUTH")⟩ = ⟨500, authMessage⟩ ∧
    classifyError ⟨"unexpected 421 response", none⟩
      = ⟨500, "unexpected 421 response"⟩ :=
  ⟨(classifyError_total ⟨"connection timeout", none⟩).2.1 (by decide),
   (classifyError_total ⟨"Invalid login", some ("EAUTH")⟩).2.2.1
     (by decide) rfl,
   (classifyError_total ⟨"unexpected 421 response", none⟩).2.2.2.2.2
     (by decide) (by decide) (by decide) (by decide)⟩

/-- C8: a message containing the substring timeout wins over code-based
classification: such an error is reported 504 with the timeout message,
whatever `error.code` is, including EAUTH, ECONNECTION or ENOTFOUND. -/
theorem classifyError_timeout_precedence (e : EmailError)
    (h : jsIncludes e.message ("timeout") = true) :
    classifyError e = ⟨504, timeoutMessage⟩ := by
  have ht : timeoutClass e = true := by simp [timeoutClass, h]
  simp [classifyError, ht]

/-- Concrete run of C8: an EAUTH-coded error whose message mentions a
timeout is reported as 504, not as the 500 authentication failure. -/
theorem classifyError_timeout_precedence_witness :
    classifyError ⟨"read timeout during login", some ("EAUTH")⟩
      = ⟨504, timeoutMessage⟩ :=
  classifyError_timeout_precedence
    ⟨"read timeout during login", some ("EAUTH")⟩ (by decide)

/-- C7: a request with no booking object, a missing or empty
`booking.email`, or an email failing the regex check is answered 400 with
`success: false`, and the delivery core never runs: zero transport
invocations and zero sleeps. -/
theorem handleSendConfirmation_rejects_invalid
    (transportFn : MailOptions → Nat → Except EmailError SendInfo)
    (emailUser : String) (booking : Option Booking) (status : Option String)
    (h : booking = none
      ∨ (∃ b, booking = some b ∧ emailFalsy b.email = true)
      ∨ (∃ b em, booking = some b ∧ b.email = some em ∧
          matchesEmailRegex em = false)) :
    (handleSendConfirmation transportFn emailUser booking status).1.statusCode
        = 400 ∧
    (handleSendConfirmation transportFn emailUser booking status).1.success
        = false ∧
    (handleSendConfirmation transportFn emailUser booking status).2
        = ⟨0, []⟩ := by
  rcases h with h | ⟨b, hb, hf⟩ | ⟨b, em, hb, he, hre⟩
  · subst h
    simp [handleSendConfirmation]
  · subst hb
    simp [handleSendConfirmation, hf]
  · subst hb
    by_cases hfal : emailFalsy b.email = true
    · simp [handleSendConfirmation, hfal]
    · simp only [handleSendConfirmation, he, hre, Option.getD_some,
        Bool.not_false, if_true]
      split_ifs <;> simp

/-- Concrete run of C7 (Scenario D): a request with no booking object is
answered 400 and the transport is never invoked. -/
theorem handleSendConfirmation_rejects_invalid_witness :
    (handleSendConfirmation (fun _ => alwaysTimeoutTransport)
        ("luna@gmail.com") none none).1.statusCode = 400 ∧
    (handleSendConfirmation (fun _ => alwaysTimeoutTransport)
        ("luna@gmail.com") none none).1.success = false ∧
    (handleSendConfirmation (fun _ => alwaysTimeoutTransport)
        ("luna@gmail.com") none none).2 = ⟨0, []⟩ :=
  handleSendConfirmation_rejects_invalid (fun _ => alwaysTimeoutTransport)
    ("luna@gmail.com") none none (Or.inl rfl)

lemma confirmationSubject_ne_reminderSubject (bid : Option String) :
    confirmationSubject bid ≠ reminderSubject := by
  intro h
  have h2 := congrArg (fun s : String => s.data.head?) h
  simp only [confirmationSubject] at h2
  rw [String.data_append] at h2
  have hpre : ("✨ Payment Confirmed - Luna Massage Booking " : String).data
      = '✨' :: (" Payment Confirmed - Luna Massage Booking " : String).data :=
    rfl
  rw [hpre] at h2
  simp only [List.cons_append, List.head?_cons] at h2
  have h3 : reminderSubject.data.head? = some '📅' := rfl
  rw [h3] at h2
  exact absurd h2 (by decide)

/-- C10: template selection is decided solely by exact string equality of
`status` with the string confirmed: the built mail options carry the
confirmation subject and confirmation template precisely when
`status = some confirmed`; any other value, a missing status included, and
any differently-cased string select the reminder subject and template. -/
theorem buildMailOptions_template_selection (emailUser : String)
    (b : Booking) (status : Option String) :
    (((buildMailOptions emailUser b status).subject
          = confirmationSubject b.bookingId ∧
      (buildMailOptions emailUser b status).html
          = generateConfirmationEmail b)
      ↔ status = some ("confirmed")) ∧
    (status ≠ some ("confirmed") →
      (buildMailOptions emailUser b status).subject = reminderSubject ∧
      (buildMailOptions emailUser b status).html
          = generateReminderEmail b) := by
  by_cases h : status = some ("confirmed")
  · subst h
    exact ⟨by simp [buildMailOptions], fun hne => absurd rfl hne⟩
  · have hb : (status == some ("confirmed")) = false := by
      simp [beq_iff_eq, h]
    refine ⟨⟨?_, fun hc => absurd hc h⟩, fun _ => ?_⟩
    · rintro ⟨hs, _⟩
      exfalso
      apply confirmationSubject_ne_reminderSubject b.bookingId
      rw [← hs]
      simp [buildMailOptions, hb]
    · simp [buildMailOptions, hb]

/-- Concrete run of C10: the differently-cased status Confirmed selects the
reminder subject and template. -/
theorem buildMailOptions_template_selection_witness :
    (buildMailOptions ("luna@gmail.com")
        ⟨some ("client@example.com"), some ("LM-1"), none, none, none, none⟩
        (some ("Confirmed"))).subject = reminderSubject ∧
    (buildMailOptions ("luna@gmail.com")
        ⟨some ("client@example.com"), some ("LM-1"), none, none, none, none⟩
        (some ("Confirmed"))).html
      = generateReminderEmail
          ⟨some ("client@example.com"), some ("LM-1"), none, none, none, none⟩ :=
  (buildMailOptions_template_selection ("luna@gmail.com")
      ⟨some ("client@example.com"), some ("LM-1"), none, none, none, none⟩
      (some ("Confirmed"))).2 (by decide)
